import Mathlib

/-!
Verification development for the Synology backup client (`src/main.rs`).

The protocol/session layer of the program is shallowly embedded below:
  * a small JSON value type stands in for `serde_json::Value`;
  * each Rust function of the client layer becomes a Lean function of the
    same name; network effects become explicit `SynoResponse` parameters;
  * Rust panics (`unwrap`/`expect`/`assert!`/`panic!` macro) are modelled by
    dedicated result constructors (`Option.none`, `RustResult.panicked`,
    `CallOutcome.panickedBeforeSend`), and Rust `Result::Err` by `err`.
-/

/-- Model of `serde_json::Value` (numbers restricted to integers, which is
all this client ever reads). -/
inductive Json where
  | null : Json
  | bool (b : Bool) : Json
  | num (n : Int) : Json
  | str (s : String) : Json
  | arr (xs : List Json) : Json
  | obj (fields : List (String × Json)) : Json

/-- Field lookup in a JSON object, as `serde_json::Map::get`. -/
def jLookup (fields : List (String × Json)) (k : String) : Option Json :=
  (fields.find? (fun kv => kv.1 == k)).map (fun kv => kv.2)

/-! ## Error decoding tables (`file_station_upload_error_str`,
`file_station_common_error_str`, `format_common_error`, `auth_error_str`).

Each Rust `match` over disjoint integer literals is transcribed as an
ordered association list; the function performs a first-match lookup and
falls through to the next tier exactly as the `match` arms do. -/

/-- The arms of the `match` in `file_station_upload_error_str` (codes
1800-1805), in source order. -/
def file_station_upload_error_table : List (Int × String) :=
  [(1800, "There is no Content-Length information in the HTTP header or the receved size doesn't match the value of Content-Length information in the HTTP header."),
   (1801, "Wait too long, no date can be receved from client. (Default maximum wait time is 3600 seconds)."),
   (1802, "No filename information in the last part of file content."),
   (1803, "Upload connection is cancelled."),
   (1804, "Failed to upload oversized file to FAT file system."),
   (1805, "Can't overwrite or skip the existed file, if no `overwrite` parameter is given.")]

/-- The arms of the `match` in `file_station_common_error_str`
(codes 400-421 and 599), in source order. -/
def file_station_common_error_table : List (Int × String) :=
  [(400, "Invalid parameter of file operation"),
   (401, "Unknown error of file operation"),
   (402, "System is too busy"),
   (403, "Invalid user does this file operation"),
   (404, "Invalid group does this file operation"),
   (405, "Invalid user and group does this file operation"),
   (406, "Can't get user/group information from the account server"),
   (407, "Operation not permitted"),
   (408, "No such file or directory"),
   (409, "Non-supported file system"),
   (410, "Failed to connect internet-based file system (ex: CIFS)"),
   (411, "Read-only file system"),
   (412, "Filename too long in the non-encrypted file system"),
   (413, "Filename too long in the encrypted file system"),
   (414, "File already exists"),
   (415, "Disk quota exceeded"),
   (416, "No space left on device"),
   (417, "Input/output error"),
   (418, "Illegal name or path"),
   (419, "Illegal file name"),
   (420, "Illegal file name on FAT file system"),
   (421, "Device or resource busy"),
   (599, "No such task of the file operation")]

/-- The arms of the `match` in `format_common_error` (codes 100-107 and
119), in source order. -/
def protocol_common_error_table : List (Int × String) :=
  [(100, "Unknown error"),
   (101, "No parameter of API, method or version"),
   (102, "The requested API does not exist"),
   (103, "The requested method does not exist"),
   (104, "The requested version does not support the functionality"),
   (105, "The logged in session does not have permission"),
   (106, "Session timeout"),
   (107, "Session interrupted by duplicate login"),
   (119, "SID not found")]

/-- The arms of the `match` in `auth_error_str` (codes 400-404), in source
order. -/
def auth_error_table : List (Int × String) :=
  [(400, "No such account or incorrect password"),
   (401, "Account disabled"),
   (402, "Permission denied"),
   (403, "2-step verification code required"),
   (404, "Failed to authenticate 2-step verification code")]

/-- `format_common_error`: protocol-common tier, generic fallback string
for unknown codes. -/
def format_common_error (code : Int) : String :=
  match protocol_common_error_table.lookup code with
  | some s => s
  | none => "Error code unknown"

/-- `file_station_common_error_str`: common file-operation tier, falling
through to `format_common_error`. -/
def file_station_common_error_str (code : Int) : String :=
  match file_station_common_error_table.lookup code with
  | some s => s
  | none => format_common_error code

/-- `file_station_upload_error_str`: Upload-specific tier, falling through
to `file_station_common_error_str`. -/
def file_station_upload_error_str (code : Int) : String :=
  match file_station_upload_error_table.lookup code with
  | some s => s
  | none => file_station_common_error_str code

/-- `auth_error_str`: Auth-specific tier, falling through to
`format_common_error`. -/
def auth_error_str (code : Int) : String :=
  match auth_error_table.lookup code with
  | some s => s
  | none => format_common_error code

/-! ## Response envelope (`SynoResponse`) and its serde parsing. -/

/-- `SynoResponse`: the uniform response envelope, exactly the three fields
of the Rust struct. -/
structure SynoResponse where
  success : Bool
  data : Option Json
  error : Option Json

/-- serde deserialization of an `Option<serde_json::Value>` field: a missing
field or an explicit `null` becomes `None`, any other value `Some`. -/
def parseOptField (fields : List (String × Json)) (k : String) : Option Json :=
  match jLookup fields k with
  | none => none
  | some Json.null => none
  | some v => some v

/-- serde deserialization of `SynoResponse` from a JSON value: `success` is a
required boolean; `data` and `error` are optional; no cross-field invariant
is checked. -/
def parseSynoResponse (j : Json) : Option SynoResponse :=
  match j with
  | Json.obj fields =>
    match jLookup fields "success" with
    | some (Json.bool b) => some ⟨b, parseOptField fields "data", parseOptField fields "error"⟩
    | _ => none
  | _ => none

/-- `Result` of a Rust call after the request went out: `Ok`, `Err`, or a
panic (`unwrap`/`expect`/`panic!` macro) while handling the response. -/
inductive RustResult (α : Type) where
  | ok (a : α) : RustResult α
  | err (msg : String) : RustResult α
  | panicked : RustResult α
  deriving DecidableEq

/-- Outcome of one client call, keeping track of whether the request was
sent at all: `panickedBeforeSend` models an `unwrap`/`assert!` failure
before the transport call, `errBeforeSend` an early `return Err(..)`. -/
inductive CallOutcome (ρ α : Type) where
  | panickedBeforeSend : CallOutcome ρ α
  | errBeforeSend (msg : String) : CallOutcome ρ α
  | sent (req : ρ) (result : RustResult α) : CallOutcome ρ α
  deriving DecidableEq

/-- Dispatch on the API name inside `format_error_response`: an unknown
name hits the `panic!` arm, modelled as `none`. -/
def decodeApiError (api_name : String) (code : Int) : Option String :=
  if api_name == "SYNO.API.Auth" then some (auth_error_str code)
  else if api_name == "SYNO.FileStation.List" then some (file_station_common_error_str code)
  else if api_name == "SYNO.FileStation.Upload" then some (file_station_upload_error_str code)
  else none

/-- `format_error_response`: extracts `error.code` (panicking, i.e. `none`,
when `error` is absent, not an object, or `code` missing or not an
integer), decodes it for the namespace and formats `"{code} - {text}"`. -/
def format_error_response (api_name : String) (resp : SynoResponse) : Option String :=
  match resp.error with
  | none => none
  | some (Json.obj fields) =>
    match jLookup fields "code" with
    | some (Json.num code) =>
      match decodeApiError api_name code with
      | some s => some (toString code ++ " - " ++ s)
      | none => none
    | _ => none
  | some _ => none

/-! ## Capability discovery (`get_api_versions`). -/

/-- `ApiInfo`: one discovered namespace descriptor (field order as in the
Rust struct; `u8` versions modelled as `Nat` reduced mod 256 by the
`as u8` cast at the parse site). -/
structure ApiInfo where
  min_version : Nat
  max_version : Nat
  path : String
  name : String
  deriving DecidableEq

/-- The namespaces requested by the `query` parameter of
`get_api_versions`. -/
def required_namespaces : List String :=
  ["SYNO.API.Info", "SYNO.API.Auth", "SYNO.FileStation.Info",
   "SYNO.FileStation.Upload", "SYNO.FileStation.List"]

/-- One iteration of the map over the data object in `get_api_versions`:
`path` must be a string and `minVersion`/`maxVersion` non-negative integers
(`as_u64().unwrap() as u8`), else the `unwrap` panics (`none`). -/
def parseApiEntry (kv : String × Json) : Option ApiInfo :=
  match kv.2 with
  | Json.obj fields =>
    match jLookup fields "path", jLookup fields "minVersion", jLookup fields "maxVersion" with
    | some (Json.str p), some (Json.num mn), some (Json.num mx) =>
      if 0 ≤ mn ∧ 0 ≤ mx then
        some ⟨mn.toNat % 256, mx.toNat % 256, p, kv.1⟩
      else none
    | _, _, _ => none
  | _ => none

/-- `get_api_versions`: on a success envelope, builds one `ApiInfo` per
entry of the data object (panicking on a missing/malformed field); no check
that the requested namespaces are all present. On a failure envelope it
formats the error under `"SYNO.API.Info"` (whose dispatch arm is the
`panic!` default). -/
def get_api_versions (resp : SynoResponse) : RustResult (List ApiInfo) :=
  if resp.success then
    match resp.data with
    | some (Json.obj entries) =>
      match entries.mapM parseApiEntry with
      | some infos => RustResult.ok infos
      | none => RustResult.panicked
    | _ => RustResult.panicked
  else
    match format_error_response "SYNO.API.Info" resp with
    | some msg => RustResult.err msg
    | none => RustResult.panicked

/-! ## Session lifecycle (`login`, `logout`). -/

/-- A GET request as built by the client: the descriptor's relative path
plus the query parameters, in source order. -/
structure QueryRequest where
  apiPath : String
  params : List (String × String)
  deriving DecidableEq

/-- `login`: finds the Auth descriptor (`unwrap` panic if absent), runs the
three `assert!`s (name match and protocol version 3 within
`[min_version, max_version]`), then sends the login query and branches on
the envelope. -/
def login (apis : List ApiInfo) (passwd account : String) (resp : SynoResponse) :
    CallOutcome QueryRequest Unit :=
  match apis.find? (fun x => x.name == "SYNO.API.Auth") with
  | none => CallOutcome.panickedBeforeSend
  | some api =>
    if api.name == "SYNO.API.Auth" then
      if 3 ≤ api.max_version then
        if api.min_version ≤ 3 then
          CallOutcome.sent
            ⟨api.path,
             [("api", "SYNO.API.Auth"), ("version", "3"), ("method", "login"),
              ("account", account), ("passwd", passwd), ("format", "cookie")]⟩
            (if resp.success then RustResult.ok ()
             else match format_error_response "SYNO.API.Auth" resp with
                  | some msg => RustResult.err msg
                  | none => RustResult.panicked)
        else CallOutcome.panickedBeforeSend
      else CallOutcome.panickedBeforeSend
    else CallOutcome.panickedBeforeSend

/-- `logout`: finds the Auth descriptor (`unwrap` panic if absent) and sends
the logout query directly — the source has no version `assert!`s here. -/
def logout (apis : List ApiInfo) (resp : SynoResponse) :
    CallOutcome QueryRequest Unit :=
  match apis.find? (fun x => x.name == "SYNO.API.Auth") with
  | none => CallOutcome.panickedBeforeSend
  | some api =>
    CallOutcome.sent
      ⟨api.path,
       [("api", "SYNO.API.Auth"), ("version", "3"), ("method", "logout"),
        ("format", "cookie")]⟩
      (if resp.success then RustResult.ok ()
       else match format_error_response "SYNO.API.Auth" resp with
            | some msg => RustResult.err msg
            | none => RustResult.panicked)

/-! ## Share listing (`list_fileshares`) and share resolution. -/

/-- `SharedFolder`: one discovered storage share. -/
structure SharedFolder where
  name : String
  path : String
  deriving DecidableEq

/-- Extraction of the share list from the success payload of
`list_share`: `data.shares` must be an array of objects with string
`name` and `path` fields; any deviation is an `unwrap` panic (`none`). -/
def extractShares (d : Json) : Option (List SharedFolder) :=
  match d with
  | Json.obj fields =>
    match jLookup fields "shares" with
    | some (Json.arr xs) =>
      xs.mapM (fun x =>
        match x with
        | Json.obj f =>
          match jLookup f "name", jLookup f "path" with
          | some (Json.str n), some (Json.str p) => some ⟨n, p⟩
          | _, _ => none
        | _ => none)
    | _ => none
  | _ => none

/-- `list_fileshares`: finds the File-List descriptor (`unwrap` panic if
absent), runs the three `assert!`s (name match, protocol version 2 within
bounds), sends the `list_share` query and decodes the reply. -/
def list_fileshares (apis : List ApiInfo) (resp : SynoResponse) :
    CallOutcome QueryRequest (List SharedFolder) :=
  match apis.find? (fun x => x.name == "SYNO.FileStation.List") with
  | none => CallOutcome.panickedBeforeSend
  | some api =>
    if api.name == "SYNO.FileStation.List" then
      if 2 ≤ api.max_version then
        if api.min_version ≤ 2 then
          CallOutcome.sent
            ⟨api.path,
             [("api", "SYNO.FileStation.List"), ("version", "2"), ("method", "list_share")]⟩
            (if resp.success then
               match resp.data with
               | none => RustResult.panicked
               | some d =>
                 match extractShares d with
                 | some shares => RustResult.ok shares
                 | none => RustResult.panicked
             else
               match format_error_response "SYNO.FileStation.List" resp with
               | some msg => RustResult.err msg
               | none => RustResult.panicked)
        else CallOutcome.panickedBeforeSend
      else CallOutcome.panickedBeforeSend
    else CallOutcome.panickedBeforeSend

/-- The share lookup in `main`: `shares.iter().find(|x| x.name == config.share_name)`
— exact, case-sensitive string equality on the `name` field. -/
def resolve_share (shares : List SharedFolder) (target : String) : Option SharedFolder :=
  shares.find? (fun x => x.name == target)

/-! ## Collision-avoiding filename (`add_dt_to_filename`).

`std::path::Path::file_stem`/`extension` are embedded for UTF-8 path
strings: the file name is the last non-empty, non-`.` component of the
`/`-separated path (`..` has no file name), and the stem/extension split is
at the last dot, except when that dot is the leading character. -/

/-- Splits a character list at every `/` (the path component separator). -/
def splitOnSlash (l : List Char) : List (List Char) :=
  match l with
  | [] => [[]]
  | c :: cs =>
    match splitOnSlash cs with
    | [] => [[]]
    | r :: rs => if c = '/' then [] :: r :: rs else (c :: r) :: rs

/-- `Path::file_name` for a UTF-8 path: last component after dropping empty
and `.` components; a trailing `..` component has no file name. -/
def pathFileName (p : String) : Option String :=
  let comps := (splitOnSlash p.data).filter (fun c => !c.isEmpty && c ≠ ['.'])
  match comps.getLast? with
  | none => none
  | some last => if last = ['.', '.'] then none else some ⟨last⟩

/-- Index of the last `.` in a file name, if any. -/
def lastDotIdx (l : List Char) : Option Nat :=
  match l with
  | [] => none
  | c :: cs =>
    match lastDotIdx cs with
    | some i => some (i + 1)
    | none => if c = '.' then some 0 else none

/-- The stem/extension split of a file name: no dot, or only a leading dot,
means no extension; otherwise split around the last dot. -/
def splitFileAtDot (n : List Char) : List Char × Option (List Char) :=
  match lastDotIdx n with
  | none => (n, none)
  | some i => if i = 0 then (n, none) else (n.take i, some (n.drop (i + 1)))

/-- `Path::file_stem` for a UTF-8 path. -/
def file_stem (p : String) : Option String :=
  (pathFileName p).map (fun n => ⟨(splitFileAtDot n.data).1⟩)

/-- `Path::extension` for a UTF-8 path. -/
def extension (p : String) : Option String :=
  (pathFileName p).bind (fun n => ((splitFileAtDot n.data).2).map (fun e => ⟨e⟩))

/-- A wall-clock instant, standing in for `chrono::Utc::now()`. -/
structure DateTime where
  year : Nat
  month : Nat
  day : Nat
  hour : Nat
  minute : Nat
  second : Nat
  deriving DecidableEq

/-- Zero-pads the decimal representation of `n` to width `w`. -/
def padNum (w n : Nat) : String :=
  let s := toString n
  ⟨List.replicate (w - s.length) '0' ++ s.data⟩

/-- The `chrono` format string `"%Y%m%d_%H%M%S"` applied to an instant. -/
def formatYmdHMS (t : DateTime) : String :=
  padNum 4 t.year ++ padNum 2 t.month ++ padNum 2 t.day ++ "_" ++
    padNum 2 t.hour ++ padNum 2 t.minute ++ padNum 2 t.second

/-- `add_dt_to_filename`: formats the current instant, takes the file stem
(`unwrap`+`expect` panic, i.e. `none`, when there is none) and re-attaches
the extension after the timestamp when one exists. -/
def add_dt_to_filename (filename : String) (now : DateTime) : Option String :=
  let dt := formatYmdHMS now
  match file_stem filename with
  | none => none
  | some stem =>
    match extension filename with
    | some ext => some (stem ++ "_" ++ dt ++ "." ++ ext)
    | none => some (stem ++ "_" ++ dt)

/-! ## Upload (`upload_file`). -/

/-- The multipart POST request built by `upload_file`: the descriptor's
relative path, the text fields in source order, and the single file part
(its field name and the filename it carries). -/
structure UploadForm where
  apiPath : String
  textFields : List (String × String)
  filePartField : String
  filePartFilename : String
  deriving DecidableEq

/-- `upload_file`: finds the Upload descriptor (`unwrap` panic if absent),
runs the two version `assert!`s, returns `Err` early when the local file
does not exist, renames via `add_dt_to_filename` (a panic there propagates),
builds the multipart form and sends it. -/
def upload_file (apis : List ApiInfo) (target_path filename : String)
    (fileExists : Bool) (now : DateTime) (resp : SynoResponse) :
    CallOutcome UploadForm Unit :=
  match apis.find? (fun x => x.name == "SYNO.FileStation.Upload") with
  | none => CallOutcome.panickedBeforeSend
  | some api =>
    if 2 ≤ api.max_version then
      if api.min_version ≤ 2 then
        if !fileExists then CallOutcome.errBeforeSend "File to backup does not exist"
        else
          match add_dt_to_filename filename now with
          | none => CallOutcome.panickedBeforeSend
          | some target_file_name =>
            CallOutcome.sent
              ⟨api.path,
               [("api", "SYNO.FileStation.Upload"), ("version", "2"),
                ("method", "upload"), ("path", target_path),
                ("create_parents", "true"), ("overwrite", "true")],
               "file", target_file_name⟩
              (if resp.success then RustResult.ok ()
               else match format_error_response "SYNO.FileStation.Upload" resp with
                    | some msg => RustResult.err msg
                    | none => RustResult.panicked)
      else CallOutcome.panickedBeforeSend
    else CallOutcome.panickedBeforeSend

/-! ## The run (`main` after config and archive creation).

`main` is embedded as a function of the responses the server returns for
each of the five calls, producing the sequence of client operations that
were attempted and how the process ended. `.expect(..)` on an `Err`, and
any panic inside a call, abort the process. -/

/-- One client operation attempted during the run. -/
inductive RunAction where
  | aDiscover : RunAction
  | aLogin : RunAction
  | aList : RunAction
  | aUpload : RunAction
  | aLogout : RunAction
  deriving DecidableEq

/-- How the process run ended: normal termination or a panic-driven abort. -/
inductive ExitStatus where
  | normal : ExitStatus
  | aborted : ExitStatus
  deriving DecidableEq

/-- The inputs `main` reacts to after config/archive setup: configuration
fields, whether the archive file exists, the current time, and the server's
response to each call. -/
structure RunEnv where
  shareName : String
  account : String
  passwd : String
  filename : String
  fileExists : Bool
  now : DateTime
  respDiscover : SynoResponse
  respLogin : SynoResponse
  respList : SynoResponse
  respUpload : SynoResponse
  respLogout : SynoResponse

/-- The terminal `logout(&client, &api_info).unwrap()` of `main`: the run
ends normally only when logout succeeds; an `Err` is unwrapped into a
panic. -/
def doFinalLogout (apis : List ApiInfo) (resp : SynoResponse) :
    List RunAction × ExitStatus :=
  match logout apis resp with
  | CallOutcome.sent _ (RustResult.ok _) => ([RunAction.aLogout], ExitStatus.normal)
  | _ => ([RunAction.aLogout], ExitStatus.aborted)

/-- `main` from `get_api_versions` on: each `.expect` aborts on failure;
a share-resolution miss or an upload `Err` is only printed; the run always
ends with `logout` unless an earlier step panicked. -/
def runMain (env : RunEnv) : List RunAction × ExitStatus :=
  match get_api_versions env.respDiscover with
  | RustResult.ok apis =>
    (match login apis env.passwd env.account env.respLogin with
     | CallOutcome.sent _ (RustResult.ok _) =>
       (match list_fileshares apis env.respList with
        | CallOutcome.sent _ (RustResult.ok shares) =>
          let tail :=
            match resolve_share shares env.shareName with
            | some share =>
              (match upload_file apis share.path (env.filename ++ ".zip")
                  env.fileExists env.now env.respUpload with
               | CallOutcome.panickedBeforeSend => ([RunAction.aUpload], ExitStatus.aborted)
               | CallOutcome.sent _ RustResult.panicked => ([RunAction.aUpload], ExitStatus.aborted)
               | _ =>
                 let l := doFinalLogout apis env.respLogout
                 (RunAction.aUpload :: l.1, l.2))
            | none => doFinalLogout apis env.respLogout
          ([RunAction.aDiscover, RunAction.aLogin, RunAction.aList] ++ tail.1, tail.2)
        | _ => ([RunAction.aDiscover, RunAction.aLogin, RunAction.aList], ExitStatus.aborted))
     | _ => ([RunAction.aDiscover, RunAction.aLogin], ExitStatus.aborted))
  | _ => ([RunAction.aDiscover], ExitStatus.aborted)

/-- Whether the login step of the run succeeded (the session was
established). -/
def loginSucceedsB (env : RunEnv) : Bool :=
  match get_api_versions env.respDiscover with
  | RustResult.ok apis =>
    match login apis env.passwd env.account env.respLogin with
    | CallOutcome.sent _ (RustResult.ok _) => true
    | _ => false
  | _ => false

/-- Whether the share-listing step of the run succeeded. -/
def listSucceedsB (env : RunEnv) : Bool :=
  match get_api_versions env.respDiscover with
  | RustResult.ok apis =>
    match login apis env.passwd env.account env.respLogin with
    | CallOutcome.sent _ (RustResult.ok _) =>
      match list_fileshares apis env.respList with
      | CallOutcome.sent _ (RustResult.ok _) => true
      | _ => false
    | _ => false
  | _ => false

/-- Whether the upload step panicked (as opposed to returning `Ok` or
`Err`, or not running at all). -/
def uploadPanicsB (env : RunEnv) : Bool :=
  match get_api_versions env.respDiscover with
  | RustResult.ok apis =>
    match login apis env.passwd env.account env.respLogin with
    | CallOutcome.sent _ (RustResult.ok _) =>
      match list_fileshares apis env.respList with
      | CallOutcome.sent _ (RustResult.ok shares) =>
        match resolve_share shares env.shareName with
        | some share =>
          match upload_file apis share.path (env.filename ++ ".zip")
              env.fileExists env.now env.respUpload with
          | CallOutcome.panickedBeforeSend => true
          | CallOutcome.sent _ RustResult.panicked => true
          | _ => false
        | none => false
      | _ => false
    | _ => false
  | _ => false

/-! ## Sample data used by concrete witnesses and counterexamples. -/

/-- A discovery payload advertising the Auth, File-List and Upload
namespaces with version ranges containing the client's fixed versions. -/
def sampleApisJson : Json :=
  Json.obj
    [("SYNO.API.Auth", Json.obj
        [("path", Json.str "auth.cgi"), ("minVersion", Json.num 1), ("maxVersion", Json.num 7)]),
     ("SYNO.API.Info", Json.obj
        [("path", Json.str "query.cgi"), ("minVersion", Json.num 1), ("maxVersion", Json.num 1)]),
     ("SYNO.FileStation.Info", Json.obj
        [("path", Json.str "entry.cgi"), ("minVersion", Json.num 1), ("maxVersion", Json.num 2)]),
     ("SYNO.FileStation.List", Json.obj
        [("path", Json.str "entry.cgi"), ("minVersion", Json.num 1), ("maxVersion", Json.num 3)]),
     ("SYNO.FileStation.Upload", Json.obj
        [("path", Json.str "entry.cgi"), ("minVersion", Json.num 1), ("maxVersion", Json.num 3)])]

/-- The descriptor table produced from `sampleApisJson`. -/
def sampleApis : List ApiInfo :=
  [⟨1, 7, "auth.cgi", "SYNO.API.Auth"⟩,
   ⟨1, 1, "query.cgi", "SYNO.API.Info"⟩,
   ⟨1, 2, "entry.cgi", "SYNO.FileStation.Info"⟩,
   ⟨1, 3, "entry.cgi", "SYNO.FileStation.List"⟩,
   ⟨1, 3, "entry.cgi", "SYNO.FileStation.Upload"⟩]

/-- A successful discovery reply carrying `sampleApisJson`. -/
def respDiscoverOk : SynoResponse := ⟨true, some sampleApisJson, none⟩

/-- A generic success envelope with an empty data object. -/
def respOkEmpty : SynoResponse := ⟨true, some (Json.obj []), none⟩

/-- A failure envelope carrying error code 400. -/
def respFail400 : SynoResponse := ⟨false, none, some (Json.obj [("code", Json.num 400)])⟩

/-- The example share list of the specification. -/
def sampleShares : List SharedFolder := [⟨"homes", "/home"⟩, ⟨"docs", "/docs"⟩]

/-- A successful `list_share` reply carrying `sampleShares`. -/
def respListOk : SynoResponse :=
  ⟨true,
   some (Json.obj
     [("shares", Json.arr
        [Json.obj [("name", Json.str "homes"), ("path", Json.str "/home")],
         Json.obj [("name", Json.str "docs"), ("path", Json.str "/docs")]])]),
   none⟩

/-- The example instant of the specification, 2024-03-05 10:15:30 UTC. -/
def sampleNow : DateTime := ⟨2024, 3, 5, 10, 15, 30⟩

/-- A run environment in which every call succeeds and the target share is
found. -/
def happyEnv : RunEnv :=
  ⟨"docs", "alice", "hunter2", "backup", true, sampleNow,
   respDiscoverOk, respOkEmpty, respListOk, respOkEmpty, respOkEmpty⟩

/-- Whether the login step of the run failed with a domain error (the
server answered `success=false` and the error was formatted). -/
def loginFailsDomainB (env : RunEnv) : Bool :=
  match get_api_versions env.respDiscover with
  | RustResult.ok apis =>
    match login apis env.passwd env.account env.respLogin with
    | CallOutcome.sent _ (RustResult.err _) => true
    | _ => false
  | _ => false

/-- A run in which the share-listing reply is a failure envelope. -/
def listFailEnv : RunEnv := { happyEnv with respList := respFail400 }

/-- A discovery reply whose data payload carries only one of the five
requested namespaces. -/
def respPartialDiscovery : SynoResponse :=
  ⟨true,
   some (Json.obj
     [("SYNO.API.Auth", Json.obj
        [("path", Json.str "auth.cgi"), ("minVersion", Json.num 1),
         ("maxVersion", Json.num 7)])]),
   none⟩

/-- A descriptor table whose Auth entry advertises `[1, 2]`, excluding the
fixed protocol version 3 used by `login` and `logout`. -/
def apisAuthV2 : List ApiInfo := [⟨1, 2, "auth.cgi", "SYNO.API.Auth"⟩]

/-- An envelope body with `success=true`, an `error` object and no `data`
field — the combination the envelope invariant forbids. -/
def invariantViolatingJson : Json :=
  Json.obj [("success", Json.bool true), ("error", Json.obj [("code", Json.num 119)])]

/-- A JSON envelope assembled from independent `success`, `data` and
`error` parts (a field is present exactly when its part is `some`). -/
def mkEnvelopeJson (b : Bool) (d e : Option Json) : Json :=
  Json.obj
    ([("success", Json.bool b)]
      ++ (match d with | some v => [("data", v)] | none => [])
      ++ (match e with | some v => [("error", v)] | none => []))


/-! ## Claim theorems. -/

/-- C4: error decoding for the Upload namespace is a three-tier lookup in a
fixed order — the Upload-specific table (codes 1800-1805) first, then the
common file-operation table (codes 400-421 and 599), then the protocol
common table (codes 100-107 and 119), and the generic unknown-error string
when no tier matches; each hit returns that tier's exact string. -/
theorem c4_upload_error_decode_layering :
    (file_station_upload_error_table.map Prod.fst = [1800, 1801, 1802, 1803, 1804, 1805] ∧
     file_station_common_error_table.map Prod.fst =
       [400, 401, 402, 403, 404, 405, 406, 407, 408, 409, 410, 411, 412, 413, 414, 415,
        416, 417, 418, 419, 420, 421, 599] ∧
     protocol_common_error_table.map Prod.fst =
       [100, 101, 102, 103, 104, 105, 106, 107, 119]) ∧
    (∀ c s, file_station_upload_error_table.lookup c = some s →
       file_station_upload_error_str c = s) ∧
    (∀ c s, file_station_upload_error_table.lookup c = none →
       file_station_common_error_table.lookup c = some s →
       file_station_upload_error_str c = s) ∧
    (∀ c s, file_station_upload_error_table.lookup c = none →
       file_station_common_error_table.lookup c = none →
       protocol_common_error_table.lookup c = some s →
       file_station_upload_error_str c = s) ∧
    (∀ c, file_station_upload_error_table.lookup c = none →
       file_station_common_error_table.lookup c = none →
       protocol_common_error_table.lookup c = none →
       file_station_upload_error_str c = "Error code unknown") := by
  refine ⟨by decide, ?_, ?_, ?_, ?_⟩
  · intro c s h1
    simp [file_station_upload_error_str, h1]
  · intro c s h1 h2
    simp [file_station_upload_error_str, file_station_common_error_str, h1, h2]
  · intro c s h1 h2 h3
    simp [file_station_upload_error_str, file_station_common_error_str,
      format_common_error, h1, h2, h3]
  · intro c h1 h2 h3
    simp [file_station_upload_error_str, file_station_common_error_str,
      format_common_error, h1, h2, h3]

/-- Witness for C4: code 408 is absent from the Upload table and present in
the common file-operation table, so tier 2 fires. -/
theorem c4_upload_error_decode_layering_witness :
    file_station_upload_error_str 408 = "No such file or directory" :=
  c4_upload_error_decode_layering.2.2.1 408 "No such file or directory"
    (by decide) (by decide)

/-- C6: the collision-avoiding remote filename inserts the
`YYYYMMDD_HHMMSS` timestamp immediately before the extension, or appends
it to the stem when there is no extension; at 2024-03-05 10:15:30,
`"backup.tar"` becomes `"backup_20240305_101530.tar"` and `"README"`
becomes `"README_20240305_101530"`. -/
theorem c6_timestamped_filename :
    add_dt_to_filename "backup.tar" sampleNow = some "backup_20240305_101530.tar" ∧
    add_dt_to_filename "README" sampleNow = some "README_20240305_101530" ∧
    formatYmdHMS sampleNow = "20240305_101530" ∧
    ∀ p now stem, file_stem p = some stem →
      (∀ e, extension p = some e →
         add_dt_to_filename p now = some (stem ++ "_" ++ formatYmdHMS now ++ "." ++ e)) ∧
      (extension p = none →
         add_dt_to_filename p now = some (stem ++ "_" ++ formatYmdHMS now)) := by
  refine ⟨by decide, by decide, by decide, ?_⟩
  intro p now stem hs
  constructor
  · intro e he
    simp [add_dt_to_filename, hs, he]
  · intro he
    simp [add_dt_to_filename, hs, he]

/-- Witness for C6: the general insertion shape applied to a path with a
directory component and an extension. -/
theorem c6_timestamped_filename_witness :
    add_dt_to_filename "dir/backup.tar" sampleNow =
      some ("backup" ++ "_" ++ formatYmdHMS sampleNow ++ "." ++ "tar") :=
  (c6_timestamped_filename.2.2.2 "dir/backup.tar" sampleNow "backup" (by decide)).1
    "tar" (by decide)

/-- C7: share resolution is an exact, case-sensitive match on the share
name: on the spec's example list, target `"docs"` resolves to path
`"/docs"`, targets `"missing"` and `"Docs"` resolve to nothing, and a run
whose target share is absent skips the upload step but still reaches
logout and terminates normally. -/
theorem c7_share_resolution :
    resolve_share sampleShares "docs" = some ⟨"docs", "/docs"⟩ ∧
    resolve_share sampleShares "missing" = none ∧
    resolve_share sampleShares "Docs" = none ∧
    resolve_share [⟨"DOCS", "/d"⟩] "docs" = none ∧
    runMain { happyEnv with shareName := "missing" } =
      ([RunAction.aDiscover, RunAction.aLogin, RunAction.aList, RunAction.aLogout],
       ExitStatus.normal) := by
  decide

/-- C10: `add_dt_to_filename` panics (modelled as `none`) on every path
with no file stem — the empty path among them — and returns normally
(`some`) on every path that has a stem. -/
theorem c10_add_dt_panics_without_stem :
    (∀ p now, file_stem p = none → add_dt_to_filename p now = none) ∧
    (add_dt_to_filename "" sampleNow = none) ∧
    (∀ p now, (file_stem p).isSome = true → (add_dt_to_filename p now).isSome = true) := by
  refine ⟨?_, by decide, ?_⟩
  · intro p now h
    simp [add_dt_to_filename, h]
  · intro p now h
    rcases hs : file_stem p with _ | stem
    · rw [hs] at h
      simp at h
    · rcases he : extension p with _ | e <;> simp [add_dt_to_filename, hs, he]

/-- Witness for C10: a non-empty stem-less path (`"a/.."`) panics, while a
path with a stem is renamed without panicking. -/
theorem c10_add_dt_panics_without_stem_witness :
    add_dt_to_filename "a/.." sampleNow = none ∧
    (add_dt_to_filename "backup.tar" sampleNow).isSome = true :=
  ⟨c10_add_dt_panics_without_stem.1 "a/.." sampleNow (by decide),
   c10_add_dt_panics_without_stem.2.2 "backup.tar" sampleNow (by decide)⟩

/-- C5 counterexample: a payload with `success=true`, an `error` object and
no `data` field parses successfully into an envelope violating the claimed
invariant, and discovery reacts to that envelope with a panic (an `unwrap`
failure), not a protocol error. -/
theorem c5_envelope_invariant_counterexample :
    parseSynoResponse invariantViolatingJson =
      some ⟨true, none, some (Json.obj [("code", Json.num 119)])⟩ ∧
    get_api_versions ⟨true, none, some (Json.obj [("code", Json.num 119)])⟩ =
      RustResult.panicked := by
  exact ⟨rfl, rfl⟩

/-- C5 (amended): parsing enforces no cross-field invariant — `success`,
`data` and `error` are deserialized independently and every combination is
accepted; an envelope with `success=true` and no `data` is handled by a
later `unwrap` panic rather than a protocol error. -/
theorem c5_envelope_fields_independent :
    (∀ (b : Bool) (d e : Option Json), d ≠ some Json.null → e ≠ some Json.null →
       parseSynoResponse (mkEnvelopeJson b d e) = some ⟨b, d, e⟩) ∧
    (∀ e, get_api_versions ⟨true, none, e⟩ = RustResult.panicked) := by
  constructor
  · intro b d e hd he
    rcases d with _ | (_ | bv | nv | sv | av | ov) <;>
      rcases e with _ | (_ | bw | nw | sw | aw | ow) <;>
        first
          | exact absurd rfl hd
          | exact absurd rfl he
          | rfl
  · intro e
    rfl

/-- Witness for C5 (amended): an envelope carrying both `data` and `error`
beside `success=false` parses to exactly those fields. -/
theorem c5_envelope_fields_independent_witness :
    parseSynoResponse
        (mkEnvelopeJson false (some (Json.str "x")) (some (Json.obj [("code", Json.num 100)]))) =
      some ⟨false, some (Json.str "x"), some (Json.obj [("code", Json.num 100)])⟩ :=
  c5_envelope_fields_independent.1 false (some (Json.str "x"))
    (some (Json.obj [("code", Json.num 100)])) (by simp) (by simp)

/-- C2 counterexample: a discovery reply carrying only one of the five
requested namespaces is answered with a partial descriptor table, not a
discovery error. -/
theorem c2_partial_table_counterexample :
    get_api_versions respPartialDiscovery =
      RustResult.ok [⟨1, 7, "auth.cgi", "SYNO.API.Auth"⟩] ∧
    "SYNO.FileStation.List" ∈ required_namespaces ∧
    ([(⟨1, 7, "auth.cgi", "SYNO.API.Auth"⟩ : ApiInfo)].map ApiInfo.name) =
      ["SYNO.API.Auth"] := by
  decide

/-- C2 (amended): discovery performs no presence check — on a success
envelope it returns exactly one descriptor per entry of the data payload,
whatever namespaces those are; a missing namespace only surfaces later, as
a panic when the descriptor is looked up (e.g. by `login`). -/
theorem c2_discovery_returns_whatever_is_present :
    (∀ entries infos, entries.mapM parseApiEntry = some infos →
       get_api_versions ⟨true, some (Json.obj entries), none⟩ = RustResult.ok infos) ∧
    (∀ apis passwd account resp,
       apis.find? (fun x => x.name == "SYNO.API.Auth") = none →
       login apis passwd account resp = CallOutcome.panickedBeforeSend) := by
  constructor
  · intro entries infos h
    show (match entries.mapM parseApiEntry with
          | some infos => RustResult.ok infos
          | none => RustResult.panicked) = RustResult.ok infos
    rw [h]
  · intro apis passwd account resp h
    simp [login, h]

/-- Witness for C2 (amended): a two-namespace payload yields exactly the
two descriptors present in it. -/
theorem c2_discovery_returns_whatever_is_present_witness :
    get_api_versions
        ⟨true,
         some (Json.obj
           [("SYNO.API.Auth", Json.obj
              [("path", Json.str "auth.cgi"), ("minVersion", Json.num 1),
               ("maxVersion", Json.num 7)]),
            ("SYNO.FileStation.List", Json.obj
              [("path", Json.str "entry.cgi"), ("minVersion", Json.num 1),
               ("maxVersion", Json.num 3)])]),
         none⟩ =
      RustResult.ok
        [⟨1, 7, "auth.cgi", "SYNO.API.Auth"⟩, ⟨1, 3, "entry.cgi", "SYNO.FileStation.List"⟩] :=
  c2_discovery_returns_whatever_is_present.1 _ _ (by decide)

/-- C3 counterexample: with an Auth descriptor advertising `[1, 2]` (which
excludes the fixed protocol version 3), `login` halts before sending, but
`logout` sends its request anyway — it performs no version-bound check. -/
theorem c3_logout_sends_despite_bounds_counterexample :
    logout apisAuthV2 respOkEmpty =
      CallOutcome.sent
        ⟨"auth.cgi",
         [("api", "SYNO.API.Auth"), ("version", "3"), ("method", "logout"),
          ("format", "cookie")]⟩
        (RustResult.ok ()) ∧
    login apisAuthV2 "p" "a" respOkEmpty = CallOutcome.panickedBeforeSend := by
  decide

/-- C3 (amended): only `login` asserts that the fixed protocol version 3
lies within the Auth descriptor's `[min_version, max_version]`, halting
before the request when it does not; `logout` looks the descriptor up and
sends its request with no version check at all. -/
theorem c3_version_check_login_only :
    (∀ apis api passwd account resp,
       apis.find? (fun x => x.name == "SYNO.API.Auth") = some api →
       ¬(3 ≤ api.max_version ∧ api.min_version ≤ 3) →
       login apis passwd account resp = CallOutcome.panickedBeforeSend) ∧
    (∀ apis api resp,
       apis.find? (fun x => x.name == "SYNO.API.Auth") = some api →
       logout apis resp =
         CallOutcome.sent
           ⟨api.path,
            [("api", "SYNO.API.Auth"), ("version", "3"), ("method", "logout"),
             ("format", "cookie")]⟩
           (if resp.success then RustResult.ok ()
            else match format_error_response "SYNO.API.Auth" resp with
                 | some msg => RustResult.err msg
                 | none => RustResult.panicked)) := by
  constructor
  · intro apis api passwd account resp hfind hv
    have hname : (api.name == "SYNO.API.Auth") = true :=
      (List.find?_eq_some.mp hfind).1
    unfold login
    rw [hfind]
    simp only [hname, if_true]
    by_cases h1 : 3 ≤ api.max_version
    · have h2 : ¬(api.min_version ≤ 3) := fun h2 => hv ⟨h1, h2⟩
      rw [if_pos h1, if_neg h2]
    · rw [if_neg h1]
  · intro apis api resp hfind
    unfold logout
    rw [hfind]

/-- Witness for C3 (amended): applied to the `[1, 2]` Auth descriptor and a
failure reply, `login` halts before sending while `logout` sends and
decodes the domain error. -/
theorem c3_version_check_login_only_witness :
    login apisAuthV2 "p" "a" respFail400 = CallOutcome.panickedBeforeSend ∧
    logout apisAuthV2 respFail400 =
      CallOutcome.sent
        ⟨"auth.cgi",
         [("api", "SYNO.API.Auth"), ("version", "3"), ("method", "logout"),
          ("format", "cookie")]⟩
        (if respFail400.success then RustResult.ok ()
         else match format_error_response "SYNO.API.Auth" respFail400 with
              | some msg => RustResult.err msg
              | none => RustResult.panicked) :=
  ⟨c3_version_check_login_only.1 apisAuthV2 ⟨1, 2, "auth.cgi", "SYNO.API.Auth"⟩
      "p" "a" respFail400 (by decide) (by decide),
   c3_version_check_login_only.2 apisAuthV2 ⟨1, 2, "auth.cgi", "SYNO.API.Auth"⟩
      respFail400 (by decide)⟩

/-- C8: whenever `upload_file` sends a request, it is a single multipart
request whose text fields are exactly the namespace name, the version
string, `method="upload"`, the destination path, `create_parents=true` and
`overwrite=true`, plus one file part under field name `"file"` carrying the
timestamp-renamed filename. -/
theorem c8_upload_form_fields :
    ∀ apis target filename fileExists now resp form r,
      upload_file apis target filename fileExists now resp = CallOutcome.sent form r →
      form.textFields =
        [("api", "SYNO.FileStation.Upload"), ("version", "2"), ("method", "upload"),
         ("path", target), ("create_parents", "true"), ("overwrite", "true")] ∧
      form.filePartField = "file" ∧
      add_dt_to_filename filename now = some form.filePartFilename := by
  intro apis target filename fileExists now resp form r h
  unfold upload_file at h
  repeat' split at h
  all_goals cases h
  all_goals exact ⟨rfl, rfl, by assumption⟩

/-- Witness for C8: a concrete upload request against the sample descriptor
table carries exactly the six text fields and the renamed file part. -/
theorem c8_upload_form_fields_witness :
    (⟨"entry.cgi",
      [("api", "SYNO.FileStation.Upload"), ("version", "2"), ("method", "upload"),
       ("path", "/docs"), ("create_parents", "true"), ("overwrite", "true")],
      "file", "backup_20240305_101530.zip"⟩ : UploadForm).textFields =
      [("api", "SYNO.FileStation.Upload"), ("version", "2"), ("method", "upload"),
       ("path", "/docs"), ("create_parents", "true"), ("overwrite", "true")] ∧
    (⟨"entry.cgi",
      [("api", "SYNO.FileStation.Upload"), ("version", "2"), ("method", "upload"),
       ("path", "/docs"), ("create_parents", "true"), ("overwrite", "true")],
      "file", "backup_20240305_101530.zip"⟩ : UploadForm).filePartField = "file" ∧
    add_dt_to_filename "backup.zip" sampleNow = some "backup_20240305_101530.zip" :=
  c8_upload_form_fields sampleApis "/docs" "backup.zip" true sampleNow respOkEmpty
    _ (RustResult.ok ()) (by decide)

/-- The terminal logout step always attempts exactly the single logout
action, whatever the reply. -/
theorem doFinalLogout_actions (apis : List ApiInfo) (resp : SynoResponse) :
    (doFinalLogout apis resp).1 = [RunAction.aLogout] := by
  unfold doFinalLogout
  split <;> rfl

/-- C9: when login fails with a domain error, the run aborts having
attempted only discovery and login — share listing and upload never run and
logout is never called. -/
theorem c9_login_domain_failure_aborts :
    ∀ env, loginFailsDomainB env = true →
      runMain env = ([RunAction.aDiscover, RunAction.aLogin], ExitStatus.aborted) := by
  intro env h
  unfold loginFailsDomainB at h
  unfold runMain
  repeat' split at h
  all_goals simp_all

/-- Witness for C9: the happy-path run with the login reply replaced by an
Auth domain error (code 400) stops right after the login attempt. -/
theorem c9_login_domain_failure_aborts_witness :
    runMain { happyEnv with respLogin := respFail400 } =
      ([RunAction.aDiscover, RunAction.aLogin], ExitStatus.aborted) :=
  c9_login_domain_failure_aborts { happyEnv with respLogin := respFail400 } (by decide)

/-- C1 counterexample: in a run whose share-listing reply is a failure
envelope, login succeeded, yet the process aborts at the `.expect` on
`list_fileshares` and logout is never attempted — an exit path after a
successful login that skips logout. -/
theorem c1_list_failure_skips_logout_counterexample :
    loginSucceedsB listFailEnv = true ∧
    runMain listFailEnv =
      ([RunAction.aDiscover, RunAction.aLogin, RunAction.aList], ExitStatus.aborted) ∧
    (runMain listFailEnv).1.count RunAction.aLogout = 0 := by
  decide

/-- C1 (amended): after a successful login, logout is attempted exactly
once on every exit path on which share listing also succeeded and the
upload step did not panic — in particular on the share-not-found path and
on the upload-failure path; a share-listing failure (or a panic inside the
upload step) aborts the run before logout. -/
theorem c1_logout_exactly_once :
    ∀ env, loginSucceedsB env = true → listSucceedsB env = true →
      uploadPanicsB env = false →
      (runMain env).1.count RunAction.aLogout = 1 := by
  intro env h1 h2 h3
  unfold listSucceedsB at h2
  unfold uploadPanicsB at h3
  unfold runMain
  repeat' split at h2
  any_goals exact Bool.noConfusion h2
  rename_i xD apis heqD xL reqL u heqL xLs reqLs shares heqLs
  simp only [*] at h3 ⊢
  rcases hR : resolve_share shares env.shareName with _ | share
  · simp only [doFinalLogout_actions]
    decide
  · rw [hR] at h3
    rcases hU : upload_file apis share.path (env.filename ++ ".zip")
        env.fileExists env.now env.respUpload with _ | msg | ⟨rq, r⟩
    · simp [hU] at h3
    · simp only [hU, doFinalLogout_actions]
      decide
    · rcases r with _ | _ | _
      · simp only [hU, doFinalLogout_actions]
        decide
      · simp only [hU, doFinalLogout_actions]
        decide
      · simp [hU] at h3

/-- Witness for C1 (amended): in the all-success run, logout is attempted
exactly once. -/
theorem c1_logout_exactly_once_witness :
    (runMain happyEnv).1.count RunAction.aLogout = 1 :=
  c1_logout_exactly_once happyEnv (by decide) (by decide) (by decide)
